import Mathlib

/-!
Shallow embedding of the NetWorthTracker persistence layer
(`src/utils/dataService.ts`, class `DataService`) together with the
collaborating types from `Dashboard.tsx` (`Transaction`, `StorageConfig`).

Modelling conventions:
* `localStorage` is modelled as a record with one field per key the
  service actually uses (`google_drive_tokens`, `financial_data`);
  values are strings, absence is `none`.
* `JSON.stringify` / `JSON.parse` on the two stored shapes are modelled
  by concrete, executable encoders and parsers over `List Char`
  (`encodeData`/`decodeData`, `encodeTokens`/`decodeTokens`); the
  round-trip law is proved, not assumed.  A string the parser rejects
  models a `JSON.parse` exception.
* Every network response is supplied by an `Env` record (one entry per
  endpoint the service talks to); `fetch` is modelled by reading the
  corresponding entry.  `Date.now()` is an explicit `now : Nat`.
* JavaScript truthiness is modelled where the code relies on it:
  a missing or empty-string token is falsy, `expiry_date` equal to `0`
  is falsy, an empty `localStorage` string is falsy.
* Thrown exceptions are modelled with `Except`; the observable state at
  the moment of the throw is returned alongside the error.
-/

namespace NetWorth

/-- Transaction type tag, from `Dashboard.tsx` (`'asset' | 'liability' | 'income' | 'expense'`). -/
inductive TxType where
  | asset
  | liability
  | income
  | expense
deriving DecidableEq

/-- Currency code, from the app (`'USD' | 'EUR' | 'INR'`). -/
inductive Currency where
  | USD
  | EUR
  | INR
deriving DecidableEq

/-- A transaction record, from `Dashboard.tsx`.  `amount` is modelled as a
natural number (the app only stores non-negative amounts; numeric-grammar
subtleties of IEEE doubles are outside the claims). -/
structure Transaction where
  id : String
  type : TxType
  category : String
  description : String
  amount : Nat
  currency : Currency
  date : String
deriving DecidableEq

/-- The persisted document, `interface StoredData { transactions: any[] }`. -/
structure StoredData where
  transactions : List Transaction
deriving DecidableEq

/-- OAuth client credentials, `interface GoogleAuthCredentials`. -/
structure GoogleAuthCredentials where
  clientId : String
  clientSecret : String
  redirectUri : String
deriving DecidableEq

/-- Storage backend tag, the TS union `'local' | 'google-drive'`. -/
inductive StorageType where
  | localBackend
  | googleDrive
deriving DecidableEq

/-- Configuration passed to the service, `interface StorageConfig` from `Dashboard.tsx`. -/
structure StorageConfig where
  type : StorageType
  credentials : Option GoogleAuthCredentials
deriving DecidableEq

/-- The token blob the service keeps (`this.googleTokens`); the fields the
code reads are `access_token`, `refresh_token` and `expiry_date`. -/
structure Tokens where
  access_token : String
  refresh_token : Option String
  expiry_date : Option Nat
deriving DecidableEq

/-- JavaScript truthiness of an optional string field (absent or `""` is falsy). -/
def strTruthy : Option String → Bool
  | some s => s ≠ ""
  | none => false

/-! ### A concrete model of `JSON.stringify` / `JSON.parse` on the stored shapes -/

/-- Escaping of one character inside a JSON string literal. -/
def jsonEscape (c : Char) : List Char :=
  if c = '"' ∨ c = '\\' then ['\\', c] else [c]

/-- Body of a JSON string literal. -/
def encodeStringChars (cs : List Char) : List Char :=
  cs.foldr (fun c acc => jsonEscape c ++ acc) []

/-- A JSON string literal, quotes included. -/
def encodeString (s : String) : List Char :=
  '"' :: (encodeStringChars s.data ++ ['"'])

/-- Parse the body of a JSON string literal up to the closing quote. -/
def decodeStringChars : List Char → Option (List Char × List Char)
  | [] => none
  | c :: rest =>
    if c = '"' then some ([], rest)
    else if c = '\\' then
      match rest with
      | [] => none
      | c2 :: rest2 => (decodeStringChars rest2).map (fun p => (c2 :: p.1, p.2))
    else (decodeStringChars rest).map (fun p => (c :: p.1, p.2))

/-- Parse a JSON string literal, quotes included. -/
def decodeString (cs : List Char) : Option (String × List Char) :=
  match cs with
  | '"' :: rest => (decodeStringChars rest).map (fun p => (String.mk p.1, p.2))
  | _ => none

/-- Decimal digit to character. -/
def digitChar (d : Nat) : Char := Char.ofNat (48 + d)

/-- Character to decimal digit value. -/
def charToDigit (c : Char) : Nat := c.toNat - 48

/-- Decimal representation of a natural number, as `JSON.stringify` writes it. -/
def encodeNat (n : Nat) : List Char :=
  if n = 0 then ['0'] else (Nat.digits 10 n).reverse.map digitChar

/-- Parse a decimal natural number (maximal digit run). -/
def decodeNat (cs : List Char) : Option (Nat × List Char) :=
  if (cs.takeWhile Char.isDigit).isEmpty then none
  else some (Nat.ofDigits 10 (((cs.takeWhile Char.isDigit).map charToDigit).reverse),
             cs.dropWhile Char.isDigit)

/-- String written for a transaction type tag. -/
def txTypeStr : TxType → String
  | .asset => "asset"
  | .liability => "liability"
  | .income => "income"
  | .expense => "expense"

/-- Inverse of `txTypeStr`. -/
def txTypeOf (s : String) : Option TxType :=
  if s = "asset" then some .asset
  else if s = "liability" then some .liability
  else if s = "income" then some .income
  else if s = "expense" then some .expense
  else none

/-- String written for a currency code. -/
def currencyStr : Currency → String
  | .USD => "USD"
  | .EUR => "EUR"
  | .INR => "INR"

/-- Inverse of `currencyStr`. -/
def currencyOf (s : String) : Option Currency :=
  if s = "USD" then some .USD
  else if s = "EUR" then some .EUR
  else if s = "INR" then some .INR
  else none

/-- One `"key":` prefix inside a JSON object. -/
def keyPrefix (k : String) : List Char :=
  encodeString k ++ [':']

/-- JSON encoding of one transaction, fields in the app's declaration order. -/
def encodeTx (t : Transaction) : List Char :=
  '\x7b' :: (keyPrefix ("id") ++ encodeString t.id
    ++ ',' :: (keyPrefix ("type") ++ encodeString (txTypeStr t.type)
    ++ ',' :: (keyPrefix ("category") ++ encodeString t.category
    ++ ',' :: (keyPrefix ("description") ++ encodeString t.description
    ++ ',' :: (keyPrefix ("amount") ++ encodeNat t.amount
    ++ ',' :: (keyPrefix ("currency") ++ encodeString (currencyStr t.currency)
    ++ ',' :: (keyPrefix ("date") ++ encodeString t.date
    ++ ['\x7d'])))))))

/-- Expect a literal character sequence, returning the remainder. -/
def expects (pat : List Char) (cs : List Char) : Option (List Char) :=
  match pat, cs with
  | [], rest => some rest
  | p :: ps, c :: rest => if c = p then expects ps rest else none
  | _ :: _, [] => none

/-- Parse a `,"key":"value"` string field. -/
def strField (k : String) (cs : List Char) : Option (String × List Char) :=
  (expects (',' :: keyPrefix k) cs).bind decodeString

/-- Parse one transaction object. -/
def decodeTx (cs : List Char) : Option (Transaction × List Char) :=
  match expects ('\x7b' :: keyPrefix ("id")) cs with
  | none => none
  | some cs =>
  match decodeString cs with
  | none => none
  | some (tid, cs) =>
  match strField ("type") cs with
  | none => none
  | some (tys, cs) =>
  match txTypeOf tys with
  | none => none
  | some ty =>
  match strField ("category") cs with
  | none => none
  | some (cat, cs) =>
  match strField ("description") cs with
  | none => none
  | some (desc, cs) =>
  match expects (',' :: keyPrefix ("amount")) cs with
  | none => none
  | some cs =>
  match decodeNat cs with
  | none => none
  | some (amt, cs) =>
  match strField ("currency") cs with
  | none => none
  | some (curs, cs) =>
  match currencyOf curs with
  | none => none
  | some cur =>
  match strField ("date") cs with
  | none => none
  | some (dt, cs) =>
  match expects ['\x7d'] cs with
  | none => none
  | some cs => some (⟨tid, ty, cat, desc, amt, cur, dt⟩, cs)

/-- Comma-separated tail of a JSON array of transactions. -/
def encodeTxSep (ts : List Transaction) : List Char :=
  match ts with
  | [] => []
  | t :: ts => ',' :: (encodeTx t ++ encodeTxSep ts)

/-- Body of a JSON array of transactions (no brackets). -/
def encodeTxBody (ts : List Transaction) : List Char :=
  match ts with
  | [] => []
  | t :: ts => encodeTx t ++ encodeTxSep ts

/-- Parse the `,`-separated tail of a transaction array, ending at `]`. -/
def decodeArrTail (fuel : Nat) (cs : List Char) : Option (List Transaction × List Char) :=
  match cs with
  | ']' :: rest => some ([], rest)
  | ',' :: cs2 =>
    match fuel with
    | 0 => none
    | f + 1 =>
      match decodeTx cs2 with
      | none => none
      | some (t, cs3) =>
        match decodeArrTail f cs3 with
        | none => none
        | some (ts, cs4) => some (t :: ts, cs4)
  | _ => none

/-- Parse a transaction array after the opening `[`. -/
def decodeArr (fuel : Nat) (cs : List Char) : Option (List Transaction × List Char) :=
  match cs with
  | [] => none
  | c :: rest =>
    if c = ']' then some ([], rest)
    else
      match decodeTx (c :: rest) with
      | none => none
      | some (t, cs2) =>
        match decodeArrTail fuel cs2 with
        | none => none
        | some (ts, cs3) => some (t :: ts, cs3)

/-- Serialization of the stored document, `JSON.stringify(data)`. -/
def encodeData (d : StoredData) : String :=
  String.mk ('\x7b' :: (keyPrefix ("transactions")
    ++ '[' :: (encodeTxBody d.transactions ++ (']' :: ['\x7d']))))

/-- Parse of the stored document, `JSON.parse(stored)`; `none` models a throw. -/
def decodeData (s : String) : Option StoredData :=
  match expects ('\x7b' :: (keyPrefix ("transactions") ++ ['['])) s.data with
  | none => none
  | some cs =>
    match decodeArr cs.length cs with
    | some (ts, rest) =>
      match expects ['\x7d'] rest with
      | some [] => some ⟨ts⟩
      | _ => none
    | none => none

/-- Serialization of a token set, `JSON.stringify(tokens)`; optional fields
are omitted when absent, as `JSON.stringify` omits `undefined`. -/
def encodeTokens (t : Tokens) : String :=
  String.mk ('\x7b' :: (keyPrefix ("access_token") ++ encodeString t.access_token
    ++ (match t.refresh_token with
        | some r => ',' :: (keyPrefix ("refresh_token") ++ encodeString r)
        | none => [])
    ++ (match t.expiry_date with
        | some e => ',' :: (keyPrefix ("expiry_date") ++ encodeNat e)
        | none => [])
    ++ ['\x7d']))

/-- Parse of a token set, `JSON.parse(tokens)`; `none` models a throw. -/
def decodeTokens (s : String) : Option Tokens :=
  match expects ('\x7b' :: keyPrefix ("access_token")) s.data with
  | none => none
  | some cs =>
  match decodeString cs with
  | none => none
  | some (at', cs) =>
  match
    (match expects (',' :: keyPrefix ("refresh_token")) cs with
     | some cs2 => (decodeString cs2).map (fun (p : String × List Char) => (some p.1, p.2))
     | none => some ((none : Option String), cs)) with
  | none => none
  | some (rt, cs) =>
  match
    (match expects (',' :: keyPrefix ("expiry_date")) cs with
     | some cs2 => (decodeNat cs2).map (fun (p : Nat × List Char) => (some p.1, p.2))
     | none => some ((none : Option Nat), cs)) with
  | none => none
  | some (ed, cs) =>
  match expects ['\x7d'] cs with
  | some [] => some (⟨at', rt, ed⟩ : Tokens)
  | _ => none

/-! ### The service state, environment and operations -/

/-- Errors thrown by the service; each constructor corresponds to one
`throw new Error(...)` site in `dataService.ts`.  `saveFailed` models the
re-thrown, message-wrapped error of `saveData`'s catch block. -/
inductive DSError where
  | notAuthenticated
  | credentialsNotInitialized
  | cannotRefresh
  | refreshFailed (status : Nat) (statusText : String)
  | apiError (status : Nat) (statusText : String) (body : String)
  | tokenExchangeFailed (status : Nat) (statusText : String)
  | findOrCreateFailed
  | updateFailed (status : Nat) (statusText : String) (body : String)
  | saveFailed (inner : DSError)
  | corruptLocalData
deriving DecidableEq

deriving instance DecidableEq for Except

/-- The two `localStorage` keys the service uses. -/
structure LocalStore where
  google_drive_tokens : Option String
  financial_data : Option String
deriving DecidableEq

/-- The mutable fields of the `DataService` singleton plus the local store. -/
structure DSState where
  googleCredentials : Option GoogleAuthCredentials
  googleTokens : Option Tokens
  config : Option StorageConfig
  store : LocalStore
deriving DecidableEq

/-- The fresh singleton: every field starts `null`. -/
def initState (store : LocalStore) : DSState :=
  ⟨none, none, none, store⟩

/-- One entry of a search result, `files(id, name)`. -/
structure FileMeta where
  id : String
  name : String
deriving DecidableEq

/-- An HTTP response as the code observes it: `ok`/`status`/`statusText`,
the error body text read on failure, and the parsed JSON value on success. -/
structure RespOf (α : Type) where
  ok : Bool
  status : Nat
  statusText : String
  errText : String
  val : α
deriving DecidableEq

/-- The token-endpoint response for the authorization-code exchange. -/
structure ExchangeResp where
  ok : Bool
  status : Nat
  statusText : String
  body : String
  tokens : Tokens
deriving DecidableEq

/-- The network environment: one response per endpoint the service calls. -/
structure Env where
  exchangeResp : ExchangeResp
  refreshResp : RespOf Tokens
  searchResp : RespOf (List FileMeta)
  createResp : RespOf (Option String)
  contentResp : RespOf (Option StoredData)
  uploadResp : RespOf Unit
deriving DecidableEq

/-- Result of the generic authenticated request helper. -/
structure ApiResult (α : Type) where
  result : Except DSError α
  state : DSState
  refreshes : Nat
deriving DecidableEq

/-- Result of `findOrCreateFile` (it never throws). -/
structure FindResult where
  fileId : Option String
  state : DSState
  refreshes : Nat
deriving DecidableEq

/-- Result of `saveData`; `uploaded` is the document content string sent in
the PATCH body, when the PATCH was issued. -/
structure SaveResult where
  result : Except DSError Unit
  state : DSState
  refreshes : Nat
  uploaded : Option String
deriving DecidableEq

/-- Result of `loadData`. -/
structure LoadResult where
  result : Except DSError StoredData
  state : DSState
  refreshes : Nat
deriving DecidableEq

/-- Backend selection, `getStorageType()`:
`this.googleTokens && this.config?.type === 'google-drive' ? 'google-drive' : 'local'`. -/
def getStorageType (s : DSState) : StorageType :=
  if s.googleTokens.isSome && (match s.config with
      | some c => decide (c.type = StorageType.googleDrive)
      | none => false) then
    StorageType.googleDrive
  else StorageType.localBackend

/-- Configuration, `initialize(config)`.  Sets `this.config`; when the mode
is google-drive and credentials were supplied it also replaces the stored
credentials and parses a previously persisted token blob from the local
store (`if (tokens)` makes the empty string falsy).  The `Option DSError`
component models a `JSON.parse` throw; the state at the moment of the
throw is returned alongside. -/
def initService (s : DSState) (config : StorageConfig) : DSState × Option DSError :=
  let s1 := { s with config := some config }
  match config.type, config.credentials with
  | StorageType.googleDrive, some cred =>
    let s2 := { s1 with googleCredentials := some cred }
    match s2.store.google_drive_tokens with
    | some str =>
      if str = "" then (s2, none)
      else
        match decodeTokens str with
        | some t => ({ s2 with googleTokens := some t }, none)
        | none => (s2, some DSError.corruptLocalData)
    | none => (s2, none)
  | _, _ => (s1, none)

/-- Authorization-code exchange, `handleAuthCallback(code)`. -/
def handleAuthCallback (env : Env) (s : DSState) : Except DSError DSState :=
  match s.googleCredentials with
  | none => .error .credentialsNotInitialized
  | some _ =>
    if env.exchangeResp.ok then
      let t := env.exchangeResp.tokens
      .ok { s with googleTokens := some t,
                   store := { s.store with google_drive_tokens := some (encodeTokens t) } }
    else .error (.tokenExchangeFailed env.exchangeResp.status env.exchangeResp.statusText)

/-- The pre-flight expiry test of `makeGoogleApiRequest`:
`this.googleTokens.expiry_date && Date.now() > this.googleTokens.expiry_date`
(an `expiry_date` of `0` is falsy). -/
def tokenExpired (now : Nat) (t : Tokens) : Bool :=
  match t.expiry_date with
  | some e => decide (e ≠ 0 ∧ e < now)
  | none => false

/-- The token set stored by a successful refresh: the response, with the
previous `refresh_token` kept when the response carries a falsy one. -/
def refreshedTokens (env : Env) (t : Tokens) : Tokens :=
  let n := env.refreshResp.val
  if !(strTruthy n.refresh_token) && strTruthy t.refresh_token then
    { n with refresh_token := t.refresh_token }
  else n

/-- Token refresh, `refreshTokens()`.  The `Nat` counts refresh-token-grant
exchanges actually issued against the token endpoint. -/
def refreshTokens (env : Env) (s : DSState) : Except DSError DSState × Nat :=
  match s.googleCredentials with
  | none => (.error .cannotRefresh, 0)
  | some _ =>
    match s.googleTokens with
    | none => (.error .cannotRefresh, 0)
    | some t =>
      if !(strTruthy t.refresh_token) then (.error .cannotRefresh, 0)
      else if env.refreshResp.ok then
        let newT := refreshedTokens env t
        (.ok { s with googleTokens := some newT,
                      store := { s.store with
                                 google_drive_tokens := some (encodeTokens newT) } }, 1)
      else (.error (.refreshFailed env.refreshResp.status env.refreshResp.statusText), 1)

/-- The authenticated request helper, `makeGoogleApiRequest(endpoint, options)`,
applied to the environment's response `r` for the requested endpoint. -/
def makeGoogleApiRequest {α : Type} (now : Nat) (env : Env) (s : DSState) (r : RespOf α) :
    ApiResult α :=
  match s.googleTokens with
  | none => ⟨.error .notAuthenticated, s, 0⟩
  | some t =>
    if tokenExpired now t then
      match refreshTokens env s with
      | (.error e, c) => ⟨.error e, s, c⟩
      | (.ok s1, c) =>
        if r.ok then ⟨.ok r.val, s1, c⟩
        else ⟨.error (.apiError r.status r.statusText r.errText), s1, c⟩
    else
      if r.ok then ⟨.ok r.val, s, 0⟩
      else ⟨.error (.apiError r.status r.statusText r.errText), s, 0⟩

/-- Document discovery/creation, `findOrCreateFile()`: search by name, else
create; its catch-all turns every thrown error into a `null` file id. -/
def findOrCreateFile (now : Nat) (env : Env) (s : DSState) : FindResult :=
  let r1 := makeGoogleApiRequest now env s env.searchResp
  match r1.result with
  | .error _ => ⟨none, r1.state, r1.refreshes⟩
  | .ok files =>
    match files with
    | f :: _ => ⟨some f.id, r1.state, r1.refreshes⟩
    | [] =>
      let r2 := makeGoogleApiRequest now env r1.state env.createResp
      match r2.result with
      | .error _ => ⟨none, r2.state, r1.refreshes + r2.refreshes⟩
      | .ok idOpt =>
        match idOpt with
        | some i =>
          if i = "" then ⟨none, r2.state, r1.refreshes + r2.refreshes⟩
          else ⟨some i, r2.state, r1.refreshes + r2.refreshes⟩
        | none => ⟨none, r2.state, r1.refreshes + r2.refreshes⟩

/-- The local write `localStorage.setItem('financial_data', JSON.stringify(data))`. -/
def writeLocalDoc (st : LocalStore) (d : StoredData) : LocalStore :=
  { st with financial_data := some (encodeData d) }

/-- The local read `localStorage.getItem('financial_data')` followed by the
truthiness check and `JSON.parse`; this exact block appears both in the
local branch of `loadData` and in its remote catch block. -/
def readLocalDoc (st : LocalStore) : Except DSError StoredData :=
  match st.financial_data with
  | none => .ok ⟨[]⟩
  | some str =>
    if str = "" then .ok ⟨[]⟩
    else
      match decodeData str with
      | some d => .ok d
      | none => .error .corruptLocalData

/-- The multipart `PATCH` body built by `saveData` (metadata part plus
content part around the generated boundary). -/
def multipartRequestBody (boundary : String) (d : StoredData) : String :=
  "--" ++ boundary ++ "\r\n" ++ "Content-Type: application/json\r\n\r\n"
    ++ "\x7b\"name\":\"networth_data.json\",\"mimeType\":\"application/json\"\x7d" ++ "\r\n"
    ++ "--" ++ boundary ++ "\r\n" ++ "Content-Type: application/json\r\n\r\n"
    ++ encodeData d ++ "\r\n" ++ "--" ++ boundary ++ "--"

/-- Save, `saveData(data)`.  The local branch writes the serialization under
the fixed key; the drive branch resolves the file, PATCHes the multipart
body, and on any thrown error falls back to a local write before
re-throwing a wrapped error. -/
def saveData (now : Nat) (env : Env) (s : DSState) (d : StoredData) : SaveResult :=
  match getStorageType s with
  | StorageType.localBackend =>
    ⟨.ok (), { s with store := writeLocalDoc s.store d }, 0, none⟩
  | StorageType.googleDrive =>
    let fr := findOrCreateFile now env s
    match fr.fileId with
    | none =>
      ⟨.error (.saveFailed .findOrCreateFailed),
       { fr.state with store := writeLocalDoc fr.state.store d }, fr.refreshes, none⟩
    | some _fid =>
      if env.uploadResp.ok then
        ⟨.ok (), fr.state, fr.refreshes, some (encodeData d)⟩
      else
        ⟨.error (.saveFailed (.updateFailed env.uploadResp.status env.uploadResp.statusText
            env.uploadResp.errText)),
         { fr.state with store := writeLocalDoc fr.state.store d }, fr.refreshes,
         some (encodeData d)⟩

/-- Load, `loadData()`.  The local branch reads the fixed key; the drive
branch resolves the file (a `null` resolution returns the default empty
document), fetches the content (`alt=media`), and only a thrown error
during the fetch falls back to the local copy. -/
def loadData (now : Nat) (env : Env) (s : DSState) : LoadResult :=
  match getStorageType s with
  | StorageType.localBackend => ⟨readLocalDoc s.store, s, 0⟩
  | StorageType.googleDrive =>
    let fr := findOrCreateFile now env s
    match fr.fileId with
    | none => ⟨.ok ⟨[]⟩, fr.state, fr.refreshes⟩
    | some _fid =>
      let r2 := makeGoogleApiRequest now env fr.state env.contentResp
      match r2.result with
      | .ok v =>
        match v with
        | some d => ⟨.ok d, r2.state, fr.refreshes + r2.refreshes⟩
        | none => ⟨.ok ⟨[]⟩, r2.state, fr.refreshes + r2.refreshes⟩
      | .error _ => ⟨readLocalDoc r2.state.store, r2.state, fr.refreshes + r2.refreshes⟩

/-- One caller-visible storage operation. -/
inductive Op where
  | save (now : Nat) (env : Env) (d : StoredData)
  | load (now : Nat) (env : Env)

/-- State transition of one operation. -/
def runOp (s : DSState) : Op → DSState
  | .save now env d => (saveData now env s d).state
  | .load now env => (loadData now env s).state

/-- State after a sequence of save/load operations. -/
def runOps (s : DSState) (ops : List Op) : DSState :=
  ops.foldl runOp s

/-- The state produced by storing a token set both in memory
(`this.googleTokens = tokens`) and in the local store
(`localStorage.setItem('google_drive_tokens', JSON.stringify(tokens))`),
the common tail of `handleAuthCallback` and `refreshTokens`. -/
def tokensStoredState (s : DSState) (nt : Tokens) : DSState :=
  { s with googleTokens := some nt,
           store := { s.store with google_drive_tokens := some (encodeTokens nt) } }

/-! ### Concrete fixtures used by witnesses and counterexamples -/

/-- A sample credential set. -/
def cred0 : GoogleAuthCredentials := ⟨"cid", "sec", "uri"⟩

/-- A sample transaction. -/
def txW : Transaction := ⟨"t1", TxType.asset, "cat", "desc", 5, Currency.USD, "2024-01-02"⟩

/-- A sample non-empty document. -/
def dW : StoredData := ⟨[txW]⟩

/-- A successful response carrying `v`. -/
def okResp {α : Type} (v : α) : RespOf α := ⟨true, 200, "OK", "", v⟩

/-- A failed response (status 500). -/
def errResp {α : Type} (v : α) : RespOf α := ⟨false, 500, "ERR", "boom", v⟩

/-- A token set whose `expiry_date` is the falsy timestamp `0`. -/
def tokE0 : Tokens := ⟨"A", some ("R"), some 0⟩

/-- A token set expired at time 5 (`expiry_date = 3`). -/
def tokE3 : Tokens := ⟨"A", some ("R"), some 3⟩

/-- A token set with no expiry. -/
def tokNoExp : Tokens := ⟨"A", some ("R"), none⟩

/-- Drive-mode state holding `tokE0`. -/
def sE0 : DSState :=
  ⟨some cred0, some tokE0, some ⟨StorageType.googleDrive, some cred0⟩, ⟨none, none⟩⟩

/-- Drive-mode state holding `tokE3`. -/
def sE3 : DSState :=
  ⟨some cred0, some tokE3, some ⟨StorageType.googleDrive, some cred0⟩, ⟨none, none⟩⟩

/-- Drive-mode state with fresh tokens and a local copy of `dW`. -/
def sC2 : DSState :=
  ⟨some cred0, some tokNoExp, some ⟨StorageType.googleDrive, some cred0⟩,
   ⟨none, some (encodeData dW)⟩⟩

/-- Environment in which every endpoint succeeds (search finds `F1`). -/
def envA : Env :=
  ⟨⟨true, 200, "OK", "", ⟨"A2", none, none⟩⟩, okResp ⟨"A2", none, none⟩,
   okResp [⟨"F1", "networth_data.json"⟩], okResp (some ("F1")), okResp (some dW), okResp ()⟩

/-- Environment in which the document search fails. -/
def envC2 : Env :=
  ⟨⟨true, 200, "OK", "", ⟨"A2", none, none⟩⟩, okResp ⟨"A2", none, none⟩,
   errResp [], okResp (some ("F1")), okResp (some dW), okResp ()⟩

/-- Environment in which the token refresh fails. -/
def envC5 : Env :=
  ⟨⟨true, 200, "OK", "", ⟨"A2", none, none⟩⟩, errResp ⟨"", none, none⟩,
   okResp [⟨"F1", "networth_data.json"⟩], okResp (some ("F1")), okResp (some dW), okResp ()⟩

/-- Environment in which only the content PATCH fails. -/
def envUp : Env :=
  ⟨⟨true, 200, "OK", "", ⟨"A2", none, none⟩⟩, okResp ⟨"A2", none, none⟩,
   okResp [⟨"F1", "networth_data.json"⟩], okResp (some ("F1")), okResp (some dW), errResp ()⟩

/-- Environment whose code exchange fails with body `bodyone`. -/
def envB1 : Env :=
  ⟨⟨false, 400, "Bad Request", "bodyone", ⟨"", none, none⟩⟩, okResp ⟨"", none, none⟩,
   okResp [], okResp none, okResp none, okResp ()⟩

/-- Environment identical to `envB1` except for the exchange error body. -/
def envB2 : Env :=
  ⟨⟨false, 400, "Bad Request", "bodytwo", ⟨"", none, none⟩⟩, okResp ⟨"", none, none⟩,
   okResp [], okResp none, okResp none, okResp ()⟩

/-- Local-mode state without tokens. -/
def c4sA : DSState := ⟨none, none, some ⟨StorageType.localBackend, none⟩, ⟨none, none⟩⟩

/-- Local-mode state with tokens (differs from `c4sA` only in token presence). -/
def c4sB : DSState :=
  ⟨none, some tokNoExp, some ⟨StorageType.localBackend, none⟩, ⟨none, none⟩⟩

/-- A token set as persisted in the local store. -/
def tok9 : Tokens := ⟨"A", some ("R"), none⟩

/-- A local store already holding a persisted token blob. -/
def store9 : LocalStore := ⟨some (encodeTokens tok9), none⟩

/-- Remote config with credentials. -/
def c9a : StorageConfig := ⟨StorageType.googleDrive, some cred0⟩

/-- Remote config without credentials. -/
def c9b : StorageConfig := ⟨StorageType.googleDrive, none⟩

/-! ### Round-trip laws for the serialization model -/

theorem expects_append (pat rest : List Char) : expects pat (pat ++ rest) = some rest := by
  induction pat with
  | nil => rfl
  | cons p ps ih => simp [expects, ih]

theorem expects_prefix (c : Char) (pat rest : List Char) :
    expects (c :: pat) (c :: (pat ++ rest)) = some rest := by
  simpa using expects_append (c :: pat) rest

theorem expects_single (c : Char) (rest : List Char) :
    expects [c] (c :: rest) = some rest := by
  simp [expects]

theorem encodeStringChars_cons (c : Char) (cs : List Char) :
    encodeStringChars (c :: cs) = jsonEscape c ++ encodeStringChars cs := rfl

theorem decodeStringChars_cons_eq (c : Char) (cs : List Char) :
    decodeStringChars (c :: cs) =
      if c = '"' then some (([] : List Char), cs)
      else if c = '\\' then
        match cs with
        | [] => none
        | c2 :: rest2 => (decodeStringChars rest2).map (fun p => (c2 :: p.1, p.2))
      else (decodeStringChars cs).map (fun p => (c :: p.1, p.2)) := by
  conv_lhs => unfold decodeStringChars

theorem decodeStringChars_encode (cs rest : List Char) :
    decodeStringChars (encodeStringChars cs ++ '"' :: rest) = some (cs, rest) := by
  induction cs with
  | nil =>
    rw [show encodeStringChars [] = [] from rfl, List.nil_append, decodeStringChars_cons_eq]
    simp
  | cons c cs ih =>
    rw [encodeStringChars_cons]
    by_cases h : c = '"' ∨ c = '\\'
    · have hq : ¬ ('\\' : Char) = '"' := by decide
      rw [show jsonEscape c = ['\\', c] from if_pos h]
      simp only [List.cons_append, List.nil_append]
      rw [decodeStringChars_cons_eq]
      simp [hq, ih]
    · have h1 : ¬ c = '"' := fun hc => h (Or.inl hc)
      have h2 : ¬ c = '\\' := fun hc => h (Or.inr hc)
      rw [show jsonEscape c = [c] from if_neg h]
      simp only [List.cons_append, List.nil_append]
      rw [decodeStringChars_cons_eq]
      simp [h1, h2, ih]

theorem decodeString_encode (s : String) (rest : List Char) :
    decodeString (encodeString s ++ rest) = some (s, rest) := by
  simp [encodeString, decodeString, decodeStringChars_encode]

theorem digitChar_isDigit : ∀ d, d < 10 → (digitChar d).isDigit = true := by decide

theorem charToDigit_digitChar : ∀ d, d < 10 → charToDigit (digitChar d) = d := by decide

theorem takeWhile_append_of_all (p : Char → Bool) (xs ys : List Char)
    (hx : ∀ x ∈ xs, p x = true)
    (hy : match ys with | [] => True | y :: _ => p y = false) :
    (xs ++ ys).takeWhile p = xs ∧ (xs ++ ys).dropWhile p = ys := by
  induction xs with
  | nil =>
    cases ys with
    | nil => simp
    | cons y ys => simp_all [List.takeWhile, List.dropWhile]
  | cons x xs ih =>
    have hpx : p x = true := hx x (List.mem_cons_self x xs)
    have ih' := ih (fun a ha => hx a (List.mem_cons_of_mem x ha))
    simp [List.takeWhile_cons, List.dropWhile_cons, hpx, ih'.1, ih'.2]

theorem encodeNat_all_digits (n : Nat) : ∀ c ∈ encodeNat n, c.isDigit = true := by
  intro c hc
  unfold encodeNat at hc
  by_cases h : n = 0
  · rw [if_pos h] at hc
    simp only [List.mem_singleton] at hc
    subst hc
    decide
  · rw [if_neg h] at hc
    simp only [List.mem_map, List.mem_reverse] at hc
    rcases hc with ⟨d, hd, hdc⟩
    rw [← hdc]
    exact digitChar_isDigit d (Nat.digits_lt_base (by norm_num) hd)

theorem encodeNat_ne_nil (n : Nat) : encodeNat n ≠ [] := by
  unfold encodeNat
  by_cases h : n = 0
  · simp [h]
  · simp [h, Nat.digits_ne_nil_iff_ne_zero.mpr h]

theorem decodeNat_encode (n : Nat) (c : Char) (rest : List Char) (hc : c.isDigit = false) :
    decodeNat (encodeNat n ++ c :: rest) = some (n, c :: rest) := by
  have hsplit := takeWhile_append_of_all Char.isDigit (encodeNat n)
    (c :: rest) (encodeNat_all_digits n) hc
  have hne : (encodeNat n).isEmpty = false := by
    cases h : encodeNat n with
    | nil => exact absurd h (encodeNat_ne_nil n)
    | cons a l => rfl
  unfold decodeNat
  rw [hsplit.1, hsplit.2, hne]
  simp only [Bool.false_eq_true, if_false, Option.some.injEq, Prod.mk.injEq]
  refine ⟨?_, trivial⟩
  unfold encodeNat
  by_cases h : n = 0
  · rw [if_pos h, h]
    decide
  · rw [if_neg h, List.map_map]
    have hcong : ∀ d ∈ (Nat.digits 10 n).reverse, (charToDigit ∘ digitChar) d = id d := by
      intro d hd
      exact charToDigit_digitChar d (Nat.digits_lt_base (by norm_num) (List.mem_reverse.mp hd))
    rw [List.map_congr_left hcong, List.map_id, List.reverse_reverse]
    exact Nat.ofDigits_digits 10 n

theorem txTypeOf_str (t : TxType) : txTypeOf (txTypeStr t) = some t := by
  cases t <;> decide

theorem currencyOf_str (c : Currency) : currencyOf (currencyStr c) = some c := by
  cases c <;> decide

theorem decodeNat_encode_comma (n : Nat) (rest : List Char) :
    decodeNat (encodeNat n ++ ',' :: rest) = some (n, ',' :: rest) :=
  decodeNat_encode n ',' rest (by decide)

theorem decodeNat_encode_brace (n : Nat) (rest : List Char) :
    decodeNat (encodeNat n ++ '\x7d' :: rest) = some (n, '\x7d' :: rest) :=
  decodeNat_encode n '\x7d' rest (by decide)

theorem strField_encode (k s : String) (rest : List Char) :
    strField k (',' :: (keyPrefix k ++ (encodeString s ++ rest))) = some (s, rest) := by
  have h : (',' :: keyPrefix k) ++ (encodeString s ++ rest)
      = ',' :: (keyPrefix k ++ (encodeString s ++ rest)) := by simp
  rw [strField, ← h, expects_append]
  simp [decodeString_encode]

theorem decodeTx_encode (t : Transaction) (rest : List Char) :
    decodeTx (encodeTx t ++ rest) = some (t, rest) := by
  simp only [encodeTx, List.cons_append, List.append_assoc]
  simp only [decodeTx, expects_prefix, expects_single, decodeString_encode, strField_encode,
    txTypeOf_str, currencyOf_str, decodeNat_encode_comma]

theorem encodeTx_head (t : Transaction) : encodeTx t = '\x7b' :: (encodeTx t).tail := rfl

theorem decodeArrTail_encode (ts : List Transaction) (rest : List Char) (fuel : Nat)
    (h : ts.length ≤ fuel) :
    decodeArrTail fuel (encodeTxSep ts ++ ']' :: rest) = some (ts, rest) := by
  induction ts generalizing fuel with
  | nil => simp [encodeTxSep, decodeArrTail]
  | cons t ts ih =>
    cases fuel with
    | zero => simp at h
    | succ f =>
      have hf : ts.length ≤ f := by simpa using h
      simp only [encodeTxSep, List.cons_append, List.append_assoc]
      simp only [decodeArrTail, decodeTx_encode, ih f hf]

theorem decodeArr_cons (fuel : Nat) (c : Char) (cs : List Char) (h : ¬ c = ']') :
    decodeArr fuel (c :: cs) =
      (match decodeTx (c :: cs) with
       | none => none
       | some (t, cs2) =>
         match decodeArrTail fuel cs2 with
         | none => none
         | some (ts, cs3) => some (t :: ts, cs3)) := by
  simp [decodeArr, h]

theorem decodeArr_encode (ts : List Transaction) (rest : List Char) (fuel : Nat)
    (h : ts.length ≤ fuel + 1) :
    decodeArr fuel (encodeTxBody ts ++ ']' :: rest) = some (ts, rest) := by
  cases ts with
  | nil => simp [encodeTxBody, decodeArr]
  | cons t ts =>
    have hf : ts.length ≤ fuel := by simpa using h
    have hsplit : encodeTx t ++ (encodeTxSep ts ++ ']' :: rest)
        = '\x7b' :: ((encodeTx t).tail ++ (encodeTxSep ts ++ ']' :: rest)) := rfl
    rw [encodeTxBody, List.append_assoc, hsplit,
      decodeArr_cons fuel '\x7b' _ (by decide), ← hsplit]
    simp only [decodeTx_encode, decodeArrTail_encode ts rest fuel hf]

theorem encodeTxSep_length (ts : List Transaction) : ts.length ≤ (encodeTxSep ts).length := by
  induction ts with
  | nil => simp [encodeTxSep]
  | cons t ts ih =>
    simp only [encodeTxSep, List.length_cons, List.length_append]
    omega

theorem encodeTxBody_length (ts : List Transaction) :
    ts.length ≤ (encodeTxBody ts).length + 1 := by
  cases ts with
  | nil => simp [encodeTxBody]
  | cons t ts =>
    have := encodeTxSep_length ts
    simp only [encodeTxBody, List.length_cons, List.length_append]
    omega

theorem decodeData_encode (d : StoredData) : decodeData (encodeData d) = some d := by
  have hfuel : d.transactions.length
      ≤ (encodeTxBody d.transactions ++ ']' :: ['\x7d']).length + 1 := by
    have := encodeTxBody_length d.transactions
    simp only [List.length_append, List.length_cons, List.length_nil]
    omega
  have h1 : (encodeData d).data
      = ('\x7b' :: (keyPrefix ("transactions") ++ ['['])) ++ (encodeTxBody d.transactions
        ++ ']' :: ['\x7d']) := by simp [encodeData]
  simp only [decodeData, h1, expects_append,
    decodeArr_encode d.transactions ['\x7d'] _ hfuel, expects_single]

theorem encodeData_ne_empty (d : StoredData) : encodeData d ≠ "" := by
  intro h
  have := congrArg String.data h
  simp [encodeData] at this

theorem readLocalDoc_write (st : LocalStore) (d : StoredData) :
    readLocalDoc (writeLocalDoc st d) = .ok d := by
  simp [readLocalDoc, writeLocalDoc, encodeData_ne_empty d, decodeData_encode d]

/-! ### General state lemmas -/

theorem storageLocal_of_tokens_none (s : DSState) (h : s.googleTokens = none) :
    getStorageType s = StorageType.localBackend := by
  simp [getStorageType, h]

theorem runOp_tokens_none (s : DSState) (op : Op) (h : s.googleTokens = none) :
    (runOp s op).googleTokens = none ∧ (runOp s op).config = s.config := by
  have hloc := storageLocal_of_tokens_none s h
  cases op with
  | save now env d => simp [runOp, saveData, hloc, writeLocalDoc, h]
  | load now env => simp [runOp, loadData, hloc, h]

theorem runOps_tokens_none (ops : List Op) (s : DSState) (h : s.googleTokens = none) :
    (runOps s ops).googleTokens = none := by
  induction ops generalizing s with
  | nil => simpa [runOps] using h
  | cons op ops ih =>
    have h1 := runOp_tokens_none s op h
    simpa [runOps, List.foldl_cons] using ih (runOp s op) h1.1

theorem make_refresh_fail {α : Type} (now : Nat) (env : Env) (s : DSState) (t : Tokens)
    (r : RespOf α)
    (htok : s.googleTokens = some t)
    (hexp : tokenExpired now t = true)
    (hcred : s.googleCredentials.isSome = true)
    (hrt : strTruthy t.refresh_token = true)
    (hfail : env.refreshResp.ok = false) :
    makeGoogleApiRequest now env s r =
      ⟨.error (.refreshFailed env.refreshResp.status env.refreshResp.statusText), s, 1⟩ := by
  obtain ⟨cr, hcr⟩ := Option.isSome_iff_exists.mp hcred
  simp [makeGoogleApiRequest, htok, hexp, refreshTokens, hcr, hrt, hfail]

theorem find_refresh_fail (now : Nat) (env : Env) (s : DSState) (t : Tokens)
    (htok : s.googleTokens = some t)
    (hexp : tokenExpired now t = true)
    (hcred : s.googleCredentials.isSome = true)
    (hrt : strTruthy t.refresh_token = true)
    (hfail : env.refreshResp.ok = false) :
    findOrCreateFile now env s = ⟨none, s, 1⟩ := by
  simp [findOrCreateFile, make_refresh_fail now env s t _ htok hexp hcred hrt hfail]

/-! ### Claim C4 -/

/-- C4: the claim's universally quantified clause "toggling token presence
alone flips the result" fails when the configured mode is local: `c4sB`
differs from `c4sA` only by the presence of a token set, yet the resolved
backend is `local` in both states. -/
theorem C4_counterexample :
    c4sB = { c4sA with googleTokens := some tokNoExp }
    ∧ getStorageType c4sA = StorageType.localBackend
    ∧ getStorageType c4sB = StorageType.localBackend := by
  refine ⟨rfl, rfl, rfl⟩

/-- C4 (amended): the active-backend resolution is a pure function of the
state returning remote iff the configured mode is remote and a token set is
present; when the configured mode is remote, toggling token presence alone
flips the result; both save and load evaluate it on the state they are
given (shown here by the local-path characterization). -/
theorem C4_amended (s : DSState) :
    (getStorageType s = StorageType.googleDrive ↔
      (s.googleTokens.isSome = true
        ∧ ∃ c, s.config = some c ∧ c.type = StorageType.googleDrive))
    ∧ ((∃ c, s.config = some c ∧ c.type = StorageType.googleDrive) →
        (∀ t, getStorageType { s with googleTokens := some t } = StorageType.googleDrive)
        ∧ getStorageType { s with googleTokens := none } = StorageType.localBackend)
    ∧ (∀ now env d, getStorageType s = StorageType.localBackend →
        saveData now env s d = ⟨.ok (), { s with store := writeLocalDoc s.store d }, 0, none⟩
        ∧ loadData now env s = ⟨readLocalDoc s.store, s, 0⟩) := by
  refine ⟨?_, ?_, ?_⟩
  · cases htk : s.googleTokens with
    | none => simp [getStorageType, htk]
    | some t =>
      cases hc : s.config with
      | none => simp [getStorageType, hc]
      | some c =>
        by_cases ht : c.type = StorageType.googleDrive
        · simp [getStorageType, hc, htk, ht]
        · simp [getStorageType, hc, htk, ht]
  · rintro ⟨c, hc, ht⟩
    exact ⟨fun t => by simp [getStorageType, hc, ht], by simp [getStorageType, hc, ht]⟩
  · intro now env d hloc
    exact ⟨by simp [saveData, hloc], by simp [loadData, hloc]⟩

/-- Witness for C4 (amended) at the fixture states. -/
theorem C4_witness :
    getStorageType sC2 = StorageType.googleDrive
    ∧ getStorageType { sC2 with googleTokens := none } = StorageType.localBackend
    ∧ loadData 0 envA c4sA = ⟨readLocalDoc c4sA.store, c4sA, 0⟩ := by
  have h := C4_amended sC2
  have h2 := (h.2.1 ⟨⟨StorageType.googleDrive, some cred0⟩, rfl, rfl⟩)
  have h3 := (C4_amended c4sA).2.2 0 envA dW (by rfl)
  exact ⟨(h.1).mpr ⟨rfl, ⟨StorageType.googleDrive, some cred0⟩, rfl, rfl⟩, h2.2, h3.2⟩

/-! ### Claim C6 -/

/-- C6: a refresh whose response carries a falsy `refresh_token` stores (in
memory and in the local store) the response with the previous refresh token
kept; a response carrying one replaces the token set wholesale. -/
theorem C6_thm (env : Env) (s : DSState) (t : Tokens)
    (htok : s.googleTokens = some t)
    (hcred : s.googleCredentials.isSome = true)
    (hrt : strTruthy t.refresh_token = true)
    (hok : env.refreshResp.ok = true) :
    (strTruthy env.refreshResp.val.refresh_token = false →
      refreshTokens env s =
        (.ok (tokensStoredState s
          { env.refreshResp.val with refresh_token := t.refresh_token }), 1))
    ∧ (strTruthy env.refreshResp.val.refresh_token = true →
      refreshTokens env s = (.ok (tokensStoredState s env.refreshResp.val), 1)) := by
  obtain ⟨cr, hcr⟩ := Option.isSome_iff_exists.mp hcred
  constructor
  · intro hnew
    simp [refreshTokens, hcr, htok, hrt, hok, refreshedTokens, hnew, tokensStoredState]
  · intro hnew
    simp [refreshTokens, hcr, htok, hrt, hok, refreshedTokens, hnew, tokensStoredState]

/-- Witness for C6 at a concrete refresh whose response omits the token. -/
theorem C6_witness :
    refreshTokens envA sE3 =
      (.ok (tokensStoredState sE3
        { (⟨"A2", none, none⟩ : Tokens) with refresh_token := some ("R") }), 1) :=
  (C6_thm envA sE3 tokE3 rfl rfl rfl rfl).1 rfl

/-! ### Claim C7 -/

/-- C7: the exchange failure does not carry the provider's response body:
two environments that differ only in the error body produce identical
errors, refuting "an error carrying the provider's status and body". -/
theorem C7_counterexample :
    envB1.exchangeResp.body ≠ envB2.exchangeResp.body
    ∧ envB1.exchangeResp.status = envB2.exchangeResp.status
    ∧ envB1.exchangeResp.statusText = envB2.exchangeResp.statusText
    ∧ envB1.exchangeResp.ok = false
    ∧ handleAuthCallback envB1 sE3 = handleAuthCallback envB2 sE3
    ∧ handleAuthCallback envB1 sE3
        = .error (.tokenExchangeFailed 400 ("Bad Request")) := by
  refine ⟨by decide, rfl, rfl, rfl, rfl, rfl⟩

/-- C7 (amended): `handleAuthCallback` fails with the not-configured error
when credentials were never supplied; on a non-2xx exchange it fails with
an error carrying the provider's status and status text (the body is only
logged); on success it stores the token set in memory and in the local
store. -/
theorem C7_amended (env : Env) (s : DSState) :
    (s.googleCredentials = none →
      handleAuthCallback env s = .error .credentialsNotInitialized)
    ∧ (s.googleCredentials.isSome = true → env.exchangeResp.ok = false →
      handleAuthCallback env s
        = .error (.tokenExchangeFailed env.exchangeResp.status env.exchangeResp.statusText))
    ∧ (s.googleCredentials.isSome = true → env.exchangeResp.ok = true →
      handleAuthCallback env s
        = .ok (tokensStoredState s env.exchangeResp.tokens)) := by
  refine ⟨fun h => by simp [handleAuthCallback, h], ?_, ?_⟩
  · intro hcred hok
    obtain ⟨cr, hcr⟩ := Option.isSome_iff_exists.mp hcred
    simp [handleAuthCallback, hcr, hok]
  · intro hcred hok
    obtain ⟨cr, hcr⟩ := Option.isSome_iff_exists.mp hcred
    simp [handleAuthCallback, hcr, hok, tokensStoredState]

/-- Witness for C7 (amended) at concrete environments. -/
theorem C7_witness :
    handleAuthCallback envB1 c4sA = .error .credentialsNotInitialized
    ∧ handleAuthCallback envB1 sC2 = .error (.tokenExchangeFailed 400 ("Bad Request"))
    ∧ handleAuthCallback envA sC2
        = .ok (tokensStoredState sC2 envA.exchangeResp.tokens) :=
  ⟨(C7_amended envB1 c4sA).1 rfl, (C7_amended envB1 sC2).2.1 rfl rfl,
   (C7_amended envA sC2).2.2 rfl rfl⟩

/-! ### Claim C9 -/

/-- C9: re-initialization does not fully replace prior state: after
`initialize(remote-with-credentials)` has loaded a persisted token set,
a second `initialize(remote-without-credentials)` leaves the old
credentials and tokens in place, so the result differs from initializing
the fresh service with the second config alone — even observably, the
resolved backend differs. -/
theorem C9_counterexample :
    (initService (initService (initState store9) c9a).1 c9b).1
      ≠ (initService (initState store9) c9b).1
    ∧ getStorageType (initService (initService (initState store9) c9a).1 c9b).1
        = StorageType.googleDrive
    ∧ getStorageType (initService (initState store9) c9b).1 = StorageType.localBackend := by
  refine ⟨by decide, by decide, by decide⟩

/-- C9 (amended): `initialize` is idempotent (immediately repeating the same
configuration is a no-op), always replaces the stored configuration, never
writes the local store and performs no network I/O (it consumes no network
environment); but it only replaces credentials/tokens when the new mode is
remote with credentials — with a local mode or missing credentials the
previous credential and token state survives. -/
theorem C9_amended (s : DSState) (c : StorageConfig) :
    initService (initService s c).1 c = initService s c
    ∧ (initService s c).1.config = some c
    ∧ (initService s c).1.store = s.store
    ∧ ((c.type = StorageType.localBackend ∨ c.credentials = none) →
        (initService s c).1.googleCredentials = s.googleCredentials
        ∧ (initService s c).1.googleTokens = s.googleTokens
        ∧ (initService s c).2 = none) := by
  obtain ⟨ty, creds⟩ := c
  cases ty with
  | localBackend =>
    cases creds <;> simp [initService]
  | googleDrive =>
    cases creds with
    | none => simp [initService]
    | some cred =>
      cases hg : s.store.google_drive_tokens with
      | none => simp [initService, hg]
      | some str =>
        by_cases he : str = ""
        · simp [initService, hg, he]
        · cases hd : decodeTokens str with
          | none => simp [initService, hg, he, hd]
          | some t => simp [initService, hg, he, hd]

/-- Witness for C9 (amended) at a concrete state and config. -/
theorem C9_witness :
    initService (initService (initState store9) c9b).1 c9b
      = initService (initState store9) c9b
    ∧ (initService (initState store9) c9b).1.googleTokens = none :=
  ⟨(C9_amended (initState store9) c9b).1,
   ((C9_amended (initState store9) c9b).2.2.2 (Or.inr rfl)).2.1⟩

/-! ### Claim C10 -/

/-- C10: initializing with remote mode but no credentials never reads the
persisted token blob — whatever the local store holds, the in-memory token
set stays absent, no parse is attempted, and every subsequent save/load
resolves the backend to local. -/
theorem C10_thm (store : LocalStore) (ops : List Op) :
    (initService (initState store) ⟨StorageType.googleDrive, none⟩).2 = none
    ∧ (initService (initState store) ⟨StorageType.googleDrive, none⟩).1.googleTokens = none
    ∧ getStorageType
        (runOps (initService (initState store) ⟨StorageType.googleDrive, none⟩).1 ops)
        = StorageType.localBackend := by
  refine ⟨rfl, rfl, ?_⟩
  exact storageLocal_of_tokens_none _
    (runOps_tokens_none ops (initService (initState store) ⟨StorageType.googleDrive, none⟩).1 rfl)

theorem make_not_expired {α : Type} (now : Nat) (env : Env) (s : DSState) (t : Tokens)
    (r : RespOf α)
    (htok : s.googleTokens = some t)
    (hexp : tokenExpired now t = false) :
    makeGoogleApiRequest now env s r =
      (if r.ok then ⟨.ok r.val, s, 0⟩
       else ⟨.error (.apiError r.status r.statusText r.errText), s, 0⟩) := by
  simp [makeGoogleApiRequest, htok, hexp]

theorem make_expired_ok {α : Type} (now : Nat) (env : Env) (s : DSState) (t : Tokens)
    (r : RespOf α)
    (htok : s.googleTokens = some t)
    (hexp : tokenExpired now t = true)
    (hcred : s.googleCredentials.isSome = true)
    (hrt : strTruthy t.refresh_token = true)
    (hok : env.refreshResp.ok = true) :
    makeGoogleApiRequest now env s r =
      (if r.ok then ⟨.ok r.val, tokensStoredState s (refreshedTokens env t), 1⟩
       else ⟨.error (.apiError r.status r.statusText r.errText),
             tokensStoredState s (refreshedTokens env t), 1⟩) := by
  obtain ⟨cr, hcr⟩ := Option.isSome_iff_exists.mp hcred
  simp [makeGoogleApiRequest, htok, hexp, refreshTokens, hcr, hrt, hok, tokensStoredState]

theorem tokenExpired_refreshed (now : Nat) (env : Env) (t : Tokens) :
    tokenExpired now (refreshedTokens env t) = tokenExpired now env.refreshResp.val := by
  by_cases h : (!strTruthy (env.refreshResp.val).refresh_token
      && strTruthy t.refresh_token) = true
  · simp [refreshedTokens, h, tokenExpired]
  · simp [refreshedTokens, h]

theorem find_not_expired (now : Nat) (env : Env) (s : DSState) (t : Tokens)
    (htok : s.googleTokens = some t)
    (hexp : tokenExpired now t = false) :
    (findOrCreateFile now env s).refreshes = 0 ∧ (findOrCreateFile now env s).state = s := by
  have h1 := make_not_expired now env s t env.searchResp htok hexp
  have h2 := make_not_expired now env s t env.createResp htok hexp
  unfold findOrCreateFile
  rw [h1]
  by_cases hs : env.searchResp.ok
  · simp only [hs, if_true]
    cases env.searchResp.val with
    | cons f fs => simp
    | nil =>
      rw [h2]
      by_cases hc : env.createResp.ok
      · simp only [hc, if_true]
        rcases env.createResp.val with _ | i
        · simp
        · by_cases hi : i = "" <;> simp [hi]
      · simp [hc]
  · simp [hs]

theorem find_expired (now : Nat) (env : Env) (s : DSState) (t : Tokens)
    (htok : s.googleTokens = some t)
    (hexp : tokenExpired now t = true)
    (hcred : s.googleCredentials.isSome = true)
    (hrt : strTruthy t.refresh_token = true)
    (hok : env.refreshResp.ok = true)
    (hfresh : tokenExpired now env.refreshResp.val = false) :
    (findOrCreateFile now env s).refreshes = 1
    ∧ (findOrCreateFile now env s).state = tokensStoredState s (refreshedTokens env t) := by
  have h1 := make_expired_ok now env s t env.searchResp htok hexp hcred hrt hok
  have htok2 : (tokensStoredState s (refreshedTokens env t)).googleTokens
      = some (refreshedTokens env t) := rfl
  have hexp2 : tokenExpired now (refreshedTokens env t) = false := by
    rw [tokenExpired_refreshed]; exact hfresh
  have h2 := make_not_expired now env (tokensStoredState s (refreshedTokens env t))
    (refreshedTokens env t) env.createResp htok2 hexp2
  unfold findOrCreateFile
  rw [h1]
  by_cases hs : env.searchResp.ok
  · simp only [hs, if_true]
    cases env.searchResp.val with
    | cons f fs => simp
    | nil =>
      rw [h2]
      by_cases hc : env.createResp.ok
      · simp only [hc, if_true]
        rcases env.createResp.val with _ | i
        · simp
        · by_cases hi : i = "" <;> simp [hi]
      · simp [hc]
  · simp [hs]

theorem saveData_refreshes (now : Nat) (env : Env) (s : DSState) (d : StoredData)
    (hmode : getStorageType s = StorageType.googleDrive) :
    (saveData now env s d).refreshes = (findOrCreateFile now env s).refreshes := by
  rcases hfid : (findOrCreateFile now env s).fileId with _ | fid
  · simp [saveData, hmode, hfid]
  · by_cases hu : env.uploadResp.ok <;> simp [saveData, hmode, hfid, hu]

theorem loadData_refreshes (now : Nat) (env : Env) (s : DSState) (s1 : DSState) (t1 : Tokens)
    (hmode : getStorageType s = StorageType.googleDrive)
    (hstate : (findOrCreateFile now env s).state = s1)
    (htok1 : s1.googleTokens = some t1)
    (hexp1 : tokenExpired now t1 = false) :
    (loadData now env s).refreshes = (findOrCreateFile now env s).refreshes := by
  rcases hfid : (findOrCreateFile now env s).fileId with _ | fid
  · simp [loadData, hmode, hfid]
  · have h2 := make_not_expired now env s1 t1 env.contentResp htok1 hexp1
    by_cases hc : env.contentResp.ok
    · rcases hv : env.contentResp.val with _ | d2
      · simp [loadData, hmode, hfid, hstate, h2, hc, hv]
      · simp [loadData, hmode, hfid, hstate, h2, hc, hv]
    · simp [loadData, hmode, hfid, hstate, h2, hc]

theorem getStorageType_congr (s s' : DSState) (hc : s'.config = s.config)
    (ht : s'.googleTokens.isSome = s.googleTokens.isSome) :
    getStorageType s' = getStorageType s := by
  simp [getStorageType, hc, ht]

theorem tokens_isSome_of_drive (s : DSState) (h : getStorageType s = StorageType.googleDrive) :
    s.googleTokens.isSome = true := by
  cases hh : s.googleTokens.isSome
  · simp [getStorageType, hh] at h
  · rfl

theorem refreshTokens_ok_fields (env : Env) (s s1 : DSState) (c : Nat)
    (h : refreshTokens env s = (.ok s1, c)) :
    s1.config = s.config ∧ s1.googleTokens.isSome = true := by
  unfold refreshTokens at h
  cases hcr : s.googleCredentials <;> rw [hcr] at h
  · simp at h
  case some cr =>
    cases htk : s.googleTokens <;> rw [htk] at h
    · simp at h
    case some t =>
      cases hb : strTruthy t.refresh_token <;> simp only [hb] at h
      · simp at h
      · cases hok : env.refreshResp.ok <;> simp only [hok] at h
        · simp at h
        · simp only [Bool.not_true, Bool.false_eq_true, if_false, if_true, Bool.true_eq_false,
            reduceIte] at h
          injection h with hA hB
          injection hA with hC
          rw [← hC]
          exact ⟨rfl, rfl⟩

theorem make_fields {α : Type} (now : Nat) (env : Env) (s : DSState) (r : RespOf α) :
    ((makeGoogleApiRequest now env s r).state.config = s.config)
    ∧ ((makeGoogleApiRequest now env s r).state.googleTokens.isSome
        = s.googleTokens.isSome) := by
  unfold makeGoogleApiRequest
  cases htk : s.googleTokens with
  | none => simp [htk]
  | some t =>
    by_cases hexp : tokenExpired now t = true
    · simp only [hexp, if_true]
      rcases hr : refreshTokens env s with ⟨res, c⟩
      cases res with
      | error e => simp [hr, htk]
      | ok s1 =>
        have hf := refreshTokens_ok_fields env s s1 c hr
        by_cases hok : r.ok = true <;>
          simp [hr, hok, hf.1, hf.2, htk]
    · simp only [hexp, Bool.false_eq_true, if_false]
      by_cases hok : r.ok = true <;> simp [hok, htk]

theorem find_fields (now : Nat) (env : Env) (s : DSState) :
    ((findOrCreateFile now env s).state.config = s.config)
    ∧ ((findOrCreateFile now env s).state.googleTokens.isSome
        = s.googleTokens.isSome) := by
  unfold findOrCreateFile
  have h1 := make_fields now env s env.searchResp
  rcases hr1 : makeGoogleApiRequest now env s env.searchResp with ⟨res1, st1, c1⟩
  rw [hr1] at h1
  simp only at h1 ⊢
  cases res1 with
  | error e => simpa using h1
  | ok files =>
    cases files with
    | cons f fs => simpa using h1
    | nil =>
      have h2 := make_fields now env st1 env.createResp
      rcases hr2 : makeGoogleApiRequest now env st1 env.createResp with ⟨res2, st2, c2⟩
      rw [hr2] at h2
      simp only at h2 ⊢
      cases res2 with
      | error e => exact ⟨h2.1.trans h1.1, h2.2.trans h1.2⟩
      | ok idOpt =>
        rcases idOpt with _ | i
        · exact ⟨h2.1.trans h1.1, h2.2.trans h1.2⟩
        · by_cases hi : i = "" <;>
            simp only [hi, if_true, if_false, Bool.false_eq_true, reduceIte] <;>
            exact ⟨h2.1.trans h1.1, h2.2.trans h1.2⟩

theorem find_ok_first (now : Nat) (env : Env) (s : DSState) (t : Tokens) (f : FileMeta)
    (fs : List FileMeta)
    (htok : s.googleTokens = some t)
    (hexp : tokenExpired now t = false)
    (hs : env.searchResp.ok = true)
    (hv : env.searchResp.val = f :: fs) :
    findOrCreateFile now env s = ⟨some f.id, s, 0⟩ := by
  have h1 := make_not_expired now env s t env.searchResp htok hexp
  unfold findOrCreateFile
  rw [h1]
  simp [hs, hv]

/-! ### Claim C1 -/

/-- C1: the claim's "expiry timestamp in the past" clause fails at the
timestamp `0`: JavaScript treats `expiry_date: 0` as falsy, so with the
epoch expiry (certainly in the past at `now = 5`) and a stored refresh
token, a remote load and a remote save perform zero refresh exchanges, not
exactly one. -/
theorem C1_counterexample :
    sE0.googleTokens = some tokE0
    ∧ tokE0.expiry_date = some 0
    ∧ (0 : Nat) < 5
    ∧ strTruthy tokE0.refresh_token = true
    ∧ getStorageType sE0 = StorageType.googleDrive
    ∧ (loadData 5 envA sE0).refreshes = 0
    ∧ (saveData 5 envA sE0 dW).refreshes = 0 := by
  refine ⟨rfl, rfl, by decide, rfl, rfl, rfl, rfl⟩

/-- C1 (amended): with credentials configured and a truthy stored refresh
token, a remote save or load issued while the token set's expiry timestamp
is nonzero and in the past performs exactly one refresh exchange before
proceeding (provided the refresh response does not itself carry a past
expiry); and no refresh is performed when the expiry timestamp is not in
the past. -/
theorem C1_amended (now : Nat) (env : Env) (s : DSState) (t : Tokens) (d : StoredData)
    (htok : s.googleTokens = some t)
    (hmode : getStorageType s = StorageType.googleDrive) :
    (∀ e, t.expiry_date = some e → e ≠ 0 → e < now →
      s.googleCredentials.isSome = true →
      strTruthy t.refresh_token = true →
      env.refreshResp.ok = true →
      tokenExpired now env.refreshResp.val = false →
      (saveData now env s d).refreshes = 1 ∧ (loadData now env s).refreshes = 1)
    ∧ ((∀ e, t.expiry_date = some e → now ≤ e) →
      (saveData now env s d).refreshes = 0 ∧ (loadData now env s).refreshes = 0) := by
  constructor
  · intro e he he0 hlt hcred hrt hok hfresh
    have hexp : tokenExpired now t = true := by
      simp [tokenExpired, he]
      exact ⟨he0, hlt⟩
    have hfind := find_expired now env s t htok hexp hcred hrt hok hfresh
    have hexp2 : tokenExpired now (refreshedTokens env t) = false := by
      rw [tokenExpired_refreshed]; exact hfresh
    refine ⟨?_, ?_⟩
    · rw [saveData_refreshes now env s d hmode, hfind.1]
    · rw [loadData_refreshes now env s (tokensStoredState s (refreshedTokens env t))
        (refreshedTokens env t) hmode hfind.2 rfl hexp2, hfind.1]
  · intro hnp
    have hexp : tokenExpired now t = false := by
      cases he : t.expiry_date with
      | none => simp [tokenExpired, he]
      | some e =>
        have := hnp e he
        simp [tokenExpired, he]
        omega
    have hfind := find_not_expired now env s t htok hexp
    refine ⟨?_, ?_⟩
    · rw [saveData_refreshes now env s d hmode, hfind.1]
    · rw [loadData_refreshes now env s s t hmode hfind.2 htok hexp, hfind.1]

/-- Witness for C1 (amended): one refresh with an expired token, none with
an unexpired one. -/
theorem C1_witness :
    ((saveData 5 envA sE3 dW).refreshes = 1 ∧ (loadData 5 envA sE3).refreshes = 1)
    ∧ ((saveData 5 envA sC2 dW).refreshes = 0 ∧ (loadData 5 envA sC2).refreshes = 0) :=
  ⟨(C1_amended 5 envA sE3 tokE3 dW rfl rfl).1 3 rfl (by decide) (by decide) rfl rfl rfl
    (by decide),
   (C1_amended 5 envA sC2 tokNoExp dW rfl rfl).2 (fun e he => by simp [tokNoExp] at he)⟩

/-! ### Claim C2 -/

/-- C2: the claim fails on the resolution-failure path: with a non-empty
document stored under the local key and a failing document search, `load()`
returns the empty document, not the locally stored one. -/
theorem C2_counterexample :
    sC2.store.financial_data = some (encodeData dW)
    ∧ dW ≠ (⟨[]⟩ : StoredData)
    ∧ getStorageType sC2 = StorageType.googleDrive
    ∧ (findOrCreateFile 0 envC2 sC2).fileId = none
    ∧ (loadData 0 envC2 sC2).result = .ok ⟨[]⟩ := by
  refine ⟨rfl, by decide, rfl, rfl, rfl⟩

/-- C2 (amended): on the remote backend the fallback of `load()` differs by
failure point.  A failed document-handle resolution yields the empty
document without consulting the local store (and without error).  A failed
content fetch falls back to the local-store read: the parse of the stored
document, the empty document when the key is absent or holds the falsy
empty string, and — the one way this path can still throw — the
corrupt-data error when the stored text is unparsable. -/
theorem C2_amended (now : Nat) (env : Env) (s : DSState)
    (hmode : getStorageType s = StorageType.googleDrive) :
    ((findOrCreateFile now env s).fileId = none →
      loadData now env s =
        ⟨.ok ⟨[]⟩, (findOrCreateFile now env s).state, (findOrCreateFile now env s).refreshes⟩)
    ∧ (∀ fid, (findOrCreateFile now env s).fileId = some fid →
       ∀ e, (makeGoogleApiRequest now env (findOrCreateFile now env s).state
              env.contentResp).result = .error e →
       loadData now env s =
         ⟨readLocalDoc (makeGoogleApiRequest now env (findOrCreateFile now env s).state
             env.contentResp).state.store,
          (makeGoogleApiRequest now env (findOrCreateFile now env s).state
            env.contentResp).state,
          (findOrCreateFile now env s).refreshes
            + (makeGoogleApiRequest now env (findOrCreateFile now env s).state
                env.contentResp).refreshes⟩)
    ∧ (∀ st : LocalStore,
        (st.financial_data = none → readLocalDoc st = .ok ⟨[]⟩)
        ∧ (st.financial_data = some ("") → readLocalDoc st = .ok ⟨[]⟩)
        ∧ (∀ str d2, st.financial_data = some str → decodeData str = some d2 →
            readLocalDoc st = .ok d2)
        ∧ (∀ str, st.financial_data = some str → str ≠ "" → decodeData str = none →
            readLocalDoc st = .error .corruptLocalData)) := by
  refine ⟨?_, ?_, ?_⟩
  · intro hnone
    simp [loadData, hmode, hnone]
  · intro fid hfid e herr
    simp [loadData, hmode, hfid, herr]
  · intro st
    refine ⟨fun h => by simp [readLocalDoc, h], fun h => by simp [readLocalDoc, h], ?_, ?_⟩
    · intro str d2 h hd
      by_cases he : str = ""
      · rw [he] at hd
        rw [show decodeData ("") = none from rfl] at hd
        cases hd
      · simp [readLocalDoc, h, he, hd]
    · intro str h he hd
      simp [readLocalDoc, h, he, hd]

/-- Witness for C2 (amended): both failure points at concrete fixtures. -/
theorem C2_witness :
    loadData 0 envC2 sC2 =
      ⟨.ok ⟨[]⟩, (findOrCreateFile 0 envC2 sC2).state, (findOrCreateFile 0 envC2 sC2).refreshes⟩ :=
  (C2_amended 0 envC2 sC2 rfl).1 rfl

/-! ### Claim C3 -/

/-- C3: whenever a remote-backend save fails (handle resolution failed or
the content update was rejected), the serialization of the document has
been written to the local document key before the error propagates, so a
subsequent local-backend load returns the same document. -/
theorem C3_thm (now : Nat) (env : Env) (s : DSState) (d : StoredData)
    (hmode : getStorageType s = StorageType.googleDrive)
    (e : DSError) (herr : (saveData now env s d).result = .error e) :
    (saveData now env s d).state.store.financial_data = some (encodeData d)
    ∧ readLocalDoc (saveData now env s d).state.store = .ok d
    ∧ (∀ s2 : DSState, s2.store = (saveData now env s d).state.store →
        getStorageType s2 = StorageType.localBackend →
        ∀ now2 env2, (loadData now2 env2 s2).result = .ok d) := by
  have hstore : (saveData now env s d).state.store = writeLocalDoc (findOrCreateFile now env s).state.store d := by
    rcases hfid : (findOrCreateFile now env s).fileId with _ | fid
    · simp [saveData, hmode, hfid]
    · by_cases hu : env.uploadResp.ok
      · simp [saveData, hmode, hfid, hu] at herr
      · simp [saveData, hmode, hfid, hu]
  refine ⟨?_, ?_, ?_⟩
  · rw [hstore]; rfl
  · rw [hstore, readLocalDoc_write]
  · intro s2 hs2 hloc now2 env2
    simp [loadData, hloc, hs2, hstore, readLocalDoc_write]

/-- Witness for C3 at a failing upload. -/
theorem C3_witness :
    (saveData 5 envUp sE3 dW).state.store.financial_data = some (encodeData dW)
    ∧ readLocalDoc (saveData 5 envUp sE3 dW).state.store = .ok dW :=
  ⟨(C3_thm 5 envUp sE3 dW rfl (.saveFailed (.updateFailed 500 ("ERR") ("boom"))) rfl).1,
   (C3_thm 5 envUp sE3 dW rfl (.saveFailed (.updateFailed 500 ("ERR") ("boom"))) rfl).2.1⟩

/-! ### Claim C5 -/

/-- C5: a failing pre-flight refresh does not propagate from `load()`:
with an expired token and a refresh endpoint answering non-2xx, the load
succeeds with the empty document (after one attempted exchange), because
`findOrCreateFile` catches the thrown refresh error and returns a null
handle. -/
theorem C5_counterexample :
    tokenExpired 5 tokE3 = true
    ∧ strTruthy tokE3.refresh_token = true
    ∧ sE3.googleTokens = some tokE3
    ∧ envC5.refreshResp.ok = false
    ∧ getStorageType sE3 = StorageType.googleDrive
    ∧ (loadData 5 envC5 sE3).result = .ok ⟨[]⟩
    ∧ (loadData 5 envC5 sE3).refreshes = 1 := by
  refine ⟨rfl, rfl, rfl, rfl, rfl, rfl, rfl⟩

/-- C5 (amended): a failed pre-flight refresh is swallowed by the
document-resolution step: `load()` returns the empty document with no
error, and `save()` aborts with the wrapped resolution-failure error (not
the refresh error) after the best-effort local write. -/
theorem C5_amended (now : Nat) (env : Env) (s : DSState) (t : Tokens) (d : StoredData)
    (htok : s.googleTokens = some t)
    (hmode : getStorageType s = StorageType.googleDrive)
    (hexp : tokenExpired now t = true)
    (hcred : s.googleCredentials.isSome = true)
    (hrt : strTruthy t.refresh_token = true)
    (hfail : env.refreshResp.ok = false) :
    (loadData now env s).result = .ok ⟨[]⟩
    ∧ (loadData now env s).refreshes = 1
    ∧ (saveData now env s d).result = .error (.saveFailed .findOrCreateFailed)
    ∧ (saveData now env s d).state.store.financial_data = some (encodeData d) := by
  have hfind := find_refresh_fail now env s t htok hexp hcred hrt hfail
  refine ⟨?_, ?_, ?_, ?_⟩
  · simp [loadData, hmode, hfind]
  · simp [loadData, hmode, hfind]
  · simp [saveData, hmode, hfind]
  · simp [saveData, hmode, hfind, writeLocalDoc]

/-- Witness for C5 (amended) at the concrete failing-refresh environment. -/
theorem C5_witness :
    (loadData 5 envC5 sE3).result = .ok ⟨[]⟩
    ∧ (saveData 5 envC5 sE3 dW).result = .error (.saveFailed .findOrCreateFailed) :=
  ⟨((C5_amended 5 envC5 sE3 tokE3 dW rfl rfl rfl rfl rfl rfl)).1,
   ((C5_amended 5 envC5 sE3 tokE3 dW rfl rfl rfl rfl rfl rfl)).2.2.1⟩

/-! ### Claim C8 -/

/-- C8: save/load round-trip on the same backend.  On the local backend
`save(d)` succeeds and a subsequent `load()` parses exactly the
serialization `save` wrote under the fixed key, returning a document equal
to `d`.  On the remote backend, if `save(d)` succeeded then a `load()`
whose search succeeds (non-empty, with a non-expired session) and whose
content fetch returns the parse of the very content string the save
uploaded, returns a document equal to `d`. -/
theorem C8_thm (now now2 : Nat) (env env2 : Env) (s : DSState) (d : StoredData) :
    (getStorageType s = StorageType.localBackend →
      (saveData now env s d).result = .ok ()
      ∧ (loadData now2 env2 (saveData now env s d).state).result = .ok d)
    ∧ (getStorageType s = StorageType.googleDrive →
      (saveData now env s d).result = .ok () →
      (∀ t', (saveData now env s d).state.googleTokens = some t' →
        tokenExpired now2 t' = false) →
      env2.searchResp.ok = true →
      (∀ u, (saveData now env s d).uploaded = some u →
        env2.contentResp.val = decodeData u) →
      env2.contentResp.ok = true →
      ∀ f fs, env2.searchResp.val = f :: fs →
      (loadData now2 env2 (saveData now env s d).state).result = .ok d) := by
  constructor
  · intro hloc
    have hsave : saveData now env s d
        = ⟨.ok (), { s with store := writeLocalDoc s.store d }, 0, none⟩ := by
      simp [saveData, hloc]
    have hloc2 : getStorageType { s with store := writeLocalDoc s.store d }
        = StorageType.localBackend := hloc
    rw [hsave]
    exact ⟨rfl, by simp [loadData, hloc2, readLocalDoc_write]⟩
  · intro hdrive hok hnoexp hsok hcontent hcok f fs hsv
    rcases hfid : (findOrCreateFile now env s).fileId with _ | fid
    · exfalso
      simp [saveData, hdrive, hfid] at hok
    · by_cases hu : env.uploadResp.ok = true
      · have hsave : saveData now env s d
            = ⟨.ok (), (findOrCreateFile now env s).state,
               (findOrCreateFile now env s).refreshes, some (encodeData d)⟩ := by
          simp [saveData, hdrive, hfid, hu]
        have hff := find_fields now env s
        have hdrive2 : getStorageType (findOrCreateFile now env s).state
            = StorageType.googleDrive := by
          rw [getStorageType_congr s (findOrCreateFile now env s).state hff.1 hff.2]
          exact hdrive
        have hsome : (findOrCreateFile now env s).state.googleTokens.isSome = true :=
          tokens_isSome_of_drive _ hdrive2
        obtain ⟨t', ht'⟩ := Option.isSome_iff_exists.mp hsome
        have hexp' : tokenExpired now2 t' = false := by
          refine hnoexp t' ?_
          rw [hsave]
          exact ht'
        have hfind2 := find_ok_first now2 env2 (findOrCreateFile now env s).state t' f fs
          ht' hexp' hsok hsv
        have hcval : env2.contentResp.val = decodeData (encodeData d) := by
          refine hcontent (encodeData d) ?_
          rw [hsave]
        have hmake2 := make_not_expired now2 env2 (findOrCreateFile now env s).state t'
          env2.contentResp ht' hexp'
        rw [hsave]
        simp [loadData, hdrive2, hfind2, hmake2, hcok, hcval, decodeData_encode]
      · exfalso
        simp [saveData, hdrive, hfid, hu] at hok

/-- Witness for C8 at concrete fixtures: a local round trip and a remote
round trip through the uploaded content. -/
theorem C8_witness :
    ((saveData 0 envA c4sA dW).result = .ok ()
      ∧ (loadData 1 envA (saveData 0 envA c4sA dW).state).result = .ok dW)
    ∧ (loadData 1 envA (saveData 0 envA sC2 dW).state).result = .ok dW := by
  refine ⟨(C8_thm 0 1 envA envA c4sA dW).1 rfl, ?_⟩
  refine (C8_thm 0 1 envA envA sC2 dW).2 rfl rfl ?_ rfl ?_ rfl ⟨"F1", "networth_data.json"⟩ [] rfl
  · intro t' ht'
    rw [show (saveData 0 envA sC2 dW).state.googleTokens = some tokNoExp from rfl] at ht'
    injection ht' with h
    rw [← h]
    rfl
  · intro u hu
    rw [show (saveData 0 envA sC2 dW).uploaded = some (encodeData dW) from rfl] at hu
    injection hu with h
    rw [← h]
    rw [decodeData_encode]
    rfl

end NetWorth
